import Mathlib

/-!
Verification of the gateway bootstrap and lifecycle manager of
`src/server/server.js` (IntelGraph). Each component touched by the spec's
claims is shallowly embedded below: pure decision logic becomes Lean
functions, the sequential startup/shutdown code becomes event traces, and
network/OS effects (probe binds, database connects) become explicit
environment parameters recording their outcomes.
-/

namespace IntelGraph

/-! ### Port resolver (`findAvailablePort`, server.js lines 32-53)

The OS outcome of a probe bind on a given port is an environment
parameter: the bind either succeeds, fails with `EADDRINUSE` (modelled
`inUse`), or fails with some other error carrying a message. -/

/-- Outcome of `net.createServer().listen(port)` for a given port. -/
inductive BindResult where
  | success
  | inUse
  | failure (msg : String)
deriving DecidableEq, Repr

/-- Errors `findAvailablePort` can reject with: the range-exhausted error
built at line 44, or the propagated bind error of line 49. -/
inductive PortError where
  | rangeExhausted
  | other (msg : String)
deriving DecidableEq, Repr

/-- Embedding of `findAvailablePort` (server.js lines 32-53): bind a probe
to `startPort`; on success resolve with that port (the probe is closed
first, an effect with no modelled state); on `EADDRINUSE` reject with the
range-exhausted error when `startPort >= 5000`, else recurse on
`startPort + 1`; on any other bind error reject with it. -/
def findAvailablePort (env : Nat → BindResult) (startPort : Nat) :
    Except PortError Nat :=
  match env startPort with
  | .success => .ok startPort
  | .inUse =>
      if 5000 ≤ startPort then .error .rangeExhausted
      else findAvailablePort env (startPort + 1)
  | .failure msg => .error (.other msg)
termination_by 5001 - startPort
decreasing_by simp_wf; omega

lemma fap_success {env : Nat → BindResult} {p : Nat}
    (h : env p = BindResult.success) :
    findAvailablePort env p = Except.ok p := by
  unfold findAvailablePort
  rw [h]

lemma fap_failure {env : Nat → BindResult} {p : Nat} {msg : String}
    (h : env p = BindResult.failure msg) :
    findAvailablePort env p = Except.error (PortError.other msg) := by
  unfold findAvailablePort
  rw [h]

lemma fap_inUse_high {env : Nat → BindResult} {p : Nat}
    (h : env p = BindResult.inUse) (hp : 5000 ≤ p) :
    findAvailablePort env p = Except.error PortError.rangeExhausted := by
  unfold findAvailablePort
  rw [h]
  simp [hp]

lemma fap_inUse_step {env : Nat → BindResult} {p : Nat}
    (h : env p = BindResult.inUse) (hp : p < 5000) :
    findAvailablePort env p = findAvailablePort env (p + 1) := by
  conv_lhs => unfold findAvailablePort
  rw [h]
  simp [Nat.not_le.mpr hp]

lemma fap_finds_least (env : Nat → BindResult) :
    ∀ n p q, q - p = n → p ≤ q → q ≤ 5000 → env q = BindResult.success →
      (∀ r, r < q → p ≤ r → env r = BindResult.inUse) →
      findAvailablePort env p = Except.ok q := by
  intro n
  induction n with
  | zero =>
      intro p q hn hpq _ hq _
      have : p = q := by omega
      subst this
      exact fap_success hq
  | succ n ih =>
      intro p q hn hpq hqb hq hmin
      have hlt : p < q := by omega
      have hp : env p = BindResult.inUse := hmin p hlt le_rfl
      rw [fap_inUse_step hp (by omega)]
      exact ih (p + 1) q (by omega) (by omega) hqb hq
        (fun r hr hpr => hmin r hr (by omega))

lemma fap_exhausted (env : Nat → BindResult) :
    ∀ n p, 5000 - p = n → p ≤ 5000 →
      (∀ q, q ≤ 5000 → p ≤ q → env q = BindResult.inUse) →
      findAvailablePort env p = Except.error PortError.rangeExhausted := by
  intro n
  induction n with
  | zero =>
      intro p hn hp hall
      have : p = 5000 := by omega
      subst this
      exact fap_inUse_high (hall 5000 le_rfl le_rfl) le_rfl
  | succ n ih =>
      intro p hn hp hall
      have hlt : p < 5000 := by omega
      rw [fap_inUse_step (hall p (by omega) le_rfl) hlt]
      exact ih (p + 1) (by omega) (by omega)
        (fun q hq hpq => hall q hq (by omega))

/-- C1: for a starting port `p` at most the upper bound 5000, (i) when `q`
is the smallest free port at or above `p` (every lower candidate being a
bind conflict) and `q` is within the range, the resolver returns `q`;
(ii) when every port in `[p, 5000]` is a bind conflict, it fails with the
range-exhausted error; (iii) a non-conflict bind error at `p` makes it
fail immediately with that error; (iv) a bind conflict at `p < 5000`
makes it retry on port `p + 1`. -/
theorem c1_port_resolver (env : Nat → BindResult) (p : Nat)
    (hp : p ≤ 5000) :
    (∀ q, p ≤ q → q ≤ 5000 → env q = BindResult.success →
      (∀ r, r < q → p ≤ r → env r = BindResult.inUse) →
      findAvailablePort env p = Except.ok q)
    ∧ ((∀ q, q ≤ 5000 → p ≤ q → env q = BindResult.inUse) →
      findAvailablePort env p = Except.error PortError.rangeExhausted)
    ∧ (∀ msg, env p = BindResult.failure msg →
      findAvailablePort env p = Except.error (PortError.other msg))
    ∧ (env p = BindResult.inUse → p < 5000 →
      findAvailablePort env p = findAvailablePort env (p + 1)) := by
  refine ⟨?_, ?_, ?_, ?_⟩
  · intro q hpq hqb hq hmin
    exact fap_finds_least env (q - p) p q rfl hpq hqb hq hmin
  · intro hall
    exact fap_exhausted env (5000 - p) p rfl hp hall
  · intro msg h
    exact fap_failure h
  · intro h hlt
    exact fap_inUse_step h hlt

/-- Environment for the C1 witness: port 3 is free, every other port hits
a bind conflict. -/
def envFree3 : Nat → BindResult :=
  fun q => if q = 3 then BindResult.success else BindResult.inUse

/-- Witness for C1: starting at port 1 with only port 3 free, the resolver
returns 3; starting at 4998 with every port in use, it reports the range
exhausted. -/
theorem c1_port_resolver_witness :
    findAvailablePort envFree3 1 = Except.ok 3
    ∧ findAvailablePort (fun _ => BindResult.inUse) 4998
      = Except.error PortError.rangeExhausted := by
  constructor
  · exact (c1_port_resolver envFree3 1 (by norm_num)).1 3 (by norm_num)
      (by norm_num) (by decide) (by decide)
  · exact (c1_port_resolver (fun _ => BindResult.inUse) 4998
      (by norm_num)).2.1 (fun q _ _ => rfl)

/-- C10: the 5000 upper bound is only consulted after a bind conflict; a
starting port above 5000 whose probe bind succeeds is returned as-is
rather than rejected as out of range. -/
theorem c10_bound_only_after_conflict (env : Nat → BindResult) (p : Nat)
    (hfree : env p = BindResult.success) (hp : 5000 < p) :
    findAvailablePort env p = Except.ok p :=
  fap_success hfree

/-- Witness for C10: with every port free, starting at 6000 returns 6000. -/
theorem c10_bound_only_after_conflict_witness :
    findAvailablePort (fun _ => BindResult.success) 6000 = Except.ok 6000 :=
  c10_bound_only_after_conflict (fun _ => BindResult.success) 6000 rfl
    (by norm_num)

/-! ### CORS origin check (`corsOptions.origin`, server.js lines 115-143)

`config.cors.origin` may be a single origin or an array; line 122 wraps a
single value into a one-element list. The callback's outcome is a
decision plus the optional `logger.warn` line of line 129. Note the code
branches on `isDevelopment` (`config.env === 'development'`, line 75),
and JavaScript's `!origin` treats both an absent and an empty origin
header as "no origin". -/

/-- The shape of `config.cors.origin`: one origin or an array of them. -/
inductive OriginConfig where
  | single (o : String)
  | multiple (os : List String)
deriving DecidableEq, Repr

/-- Embedding of lines 122-124: normalize the config to a list. -/
def allowedOrigins : OriginConfig → List String
  | .single o => [o]
  | .multiple os => os

/-- Result of the origin callback: whether the request is accepted, and
the origin logged as a warning when it is blocked. -/
structure CorsDecision where
  allowed : Bool
  warned : Option String
deriving DecidableEq, Repr

/-- Embedding of the `corsOptions.origin` callback (lines 116-133): in
the development environment every origin is accepted; otherwise a request
with no (or an empty, JavaScript-falsy) origin header or an allow-listed
origin is accepted and anything else is blocked, logging the origin. -/
def corsOrigin (env : String) (cfg : OriginConfig) (origin : Option String) :
    CorsDecision :=
  if env = "development" then ⟨true, none⟩
  else
    match origin with
    | none => ⟨true, none⟩
    | some o =>
        if o = "" then ⟨true, none⟩
        else if o ∈ allowedOrigins cfg then ⟨true, none⟩
        else ⟨false, some o⟩

/-- Counterexample for C2: in environment `"test"` — non-production — the
code still applies the allow-list and blocks an unlisted origin, where
the claim says every origin is accepted outside production. -/
theorem c2_cors_counterexample :
    "test" ≠ "production"
    ∧ (corsOrigin "test" (OriginConfig.multiple ["https://app.example"])
        (some "https://evil.example")).allowed = false := by
  constructor
  · decide
  · rfl

/-- C2 (amended): in the development environment every origin is
accepted; in every other environment (production or any other tag)
exactly the requests whose origin is absent (or empty) or on the
allow-list are accepted, and any other request is blocked with its
origin logged as a warning. -/
theorem c2_cors_decision (env : String) (cfg : OriginConfig)
    (origin : Option String) :
    (env = "development" → corsOrigin env cfg origin = ⟨true, none⟩)
    ∧ (env ≠ "development" → origin = none →
        corsOrigin env cfg origin = ⟨true, none⟩)
    ∧ (env ≠ "development" → origin = some "" →
        corsOrigin env cfg origin = ⟨true, none⟩)
    ∧ (∀ o, env ≠ "development" → origin = some o → o ≠ "" →
        o ∈ allowedOrigins cfg → corsOrigin env cfg origin = ⟨true, none⟩)
    ∧ (∀ o, env ≠ "development" → origin = some o → o ≠ "" →
        o ∉ allowedOrigins cfg →
        corsOrigin env cfg origin = ⟨false, some o⟩) := by
  refine ⟨?_, ?_, ?_, ?_, ?_⟩
  · intro h; simp [corsOrigin, h]
  · intro h ho; subst ho; simp [corsOrigin, h]
  · intro h ho; subst ho; simp [corsOrigin, h]
  · intro o h ho hne hmem; subst ho; simp [corsOrigin, h, hne, hmem]
  · intro o h ho hne hmem; subst ho; simp [corsOrigin, h, hne, hmem]

/-- Witness for C2 (amended): a production request with an allow-listed
origin is accepted and one with an unlisted origin is blocked and
logged. -/
theorem c2_cors_decision_witness :
    corsOrigin "production" (OriginConfig.single "https://app.example")
      (some "https://app.example") = ⟨true, none⟩
    ∧ corsOrigin "production" (OriginConfig.single "https://app.example")
      (some "https://evil.example") = ⟨false, some "https://evil.example"⟩ := by
  constructor
  · exact (c2_cors_decision "production"
      (OriginConfig.single "https://app.example")
      (some "https://app.example")).2.2.2.1 "https://app.example"
      (by decide) rfl (by decide) (by decide)
  · exact (c2_cors_decision "production"
      (OriginConfig.single "https://app.example")
      (some "https://evil.example")).2.2.2.2 "https://evil.example"
      (by decide) rfl (by decide) (by decide)

/-! ### Rate limiting (`generalLimiter`, server.js lines 146-167)

The repository configures the `express-rate-limit` library; the library's
window bookkeeping is not part of this repository. Modelled from the
spec: a counter scoped to (rule, client, current window) that accumulates
requests over a fixed window and resets at window boundaries (spec §3
invariants and glossary). The values the repository itself supplies —
the `/health` skip, the 429 payload's `retryAfter` of
`Math.ceil(windowMs / 1000)` and the warning line with client IP and
path (lines 155-166) — are embedded from the source. -/

/-- Per-(rule, client) limiter state: when the current window started and
how many requests it has counted. -/
structure RLState where
  windowStart : Nat
  count : Nat
deriving DecidableEq, Repr

/-- Outcome for one request: passed through, or rejected with the
`retryAfter` seconds of the 429 payload and the logged warning line. -/
inductive RLOutcome where
  | allowed
  | limited (retryAfter : Nat) (logLine : String)
deriving DecidableEq, Repr

/-- One request against the general limiter at time `t` (milliseconds):
`/health` is skipped (lines 163-166); otherwise the window resets if
expired, the request is counted, and beyond `maxReq` it is rejected by
the handler of lines 155-162 with `retryAfter = ceil(windowMs/1000)`
seconds and a warning naming the client IP and path. -/
def generalLimiterStep (windowMs maxReq : Nat) (ip path : String)
    (t : Nat) (st : RLState) : RLState × RLOutcome :=
  if path = "/health" then (st, .allowed)
  else
    let st1 := if st.windowStart + windowMs ≤ t then RLState.mk t 0 else st
    let st2 := RLState.mk st1.windowStart (st1.count + 1)
    if maxReq < st2.count then
      (st2, .limited ((windowMs + 999) / 1000)
        ("Rate limit exceeded for IP: " ++ ip ++ " on " ++ path))
    else (st2, .allowed)

/-- Counterexample for C3: window 60000 ms, ceiling 2, two requests
already counted in the window that started at 0; the third request at
t = 30000 is rejected with `retryAfter = 60` — the full window length —
while the remaining window time is 30 seconds. -/
theorem c3_rate_limit_counterexample :
    (generalLimiterStep 60000 2 "1.2.3.4" "/api/x" 30000 ⟨0, 2⟩).2
      = RLOutcome.limited 60 "Rate limit exceeded for IP: 1.2.3.4 on /api/x"
    ∧ (60 : Nat) ≠ (0 + 60000 - 30000) / 1000 := by
  constructor
  · rfl
  · decide

/-- C3 (amended): the (ceiling+1)-th request of a client inside one
window on a non-skipped path is rejected, with a retry-after equal to
the full window duration in seconds, `ceil(windowMs/1000)`, and the
violation logged with the client address and path. -/
theorem c3_rate_limit_reject (windowMs maxReq : Nat) (ip path : String)
    (t : Nat) (st : RLState)
    (hpath : path ≠ "/health")
    (hwin : t < st.windowStart + windowMs)
    (hcount : st.count = maxReq) :
    (generalLimiterStep windowMs maxReq ip path t st).2
      = RLOutcome.limited ((windowMs + 999) / 1000)
        ("Rate limit exceeded for IP: " ++ ip ++ " on " ++ path) := by
  have hreset : ¬ st.windowStart + windowMs ≤ t := by omega
  simp [generalLimiterStep, hpath, hreset, hcount]

/-- Witness for C3 (amended): with a 60000 ms window and ceiling 2, the
third in-window request is rejected with retry-after 60 and the warning
line. -/
theorem c3_rate_limit_reject_witness :
    (generalLimiterStep 60000 2 "1.2.3.4" "/api/y" 30000 ⟨0, 2⟩).2
      = RLOutcome.limited 60
        "Rate limit exceeded for IP: 1.2.3.4 on /api/y" :=
  c3_rate_limit_reject 60000 2 "1.2.3.4" "/api/y" 30000 ⟨0, 2⟩
    (by decide) (by norm_num) rfl

/-! ### Graceful shutdown (`SIGTERM` handler, server.js lines 360-368)

The handler is straight-line sequential code; its embedding is the trace
of the effects it awaits, in order: `apolloServer.stop()`, then
`closeConnections()` (releasing the Neo4j/Postgres/Redis connections),
then `httpServer.close(...)` — which stops accepting connections and
drains existing ones — whose completion callback exits with status 0. -/

/-- One effect of the SIGTERM handler. -/
inductive ShutdownEvent where
  | apolloStop
  | closeConnections
  | httpServerClose
  | exitProc (code : Nat)
deriving DecidableEq, Repr

/-- Embedding of the SIGTERM handler (lines 360-368) as its ordered
effect trace. -/
def sigtermHandler : List ShutdownEvent :=
  [.apolloStop, .closeConnections, .httpServerClose, .exitProc 0]

/-- Counterexample for C4: in the code's shutdown trace the dependency
connections are released strictly before the HTTP listener is closed and
drained, whereas the claim puts the release after draining completes. -/
theorem c4_shutdown_counterexample :
    sigtermHandler.indexOf ShutdownEvent.closeConnections
      < sigtermHandler.indexOf ShutdownEvent.httpServerClose := by
  decide

/-- C4 (amended): on SIGTERM the process first stops the GraphQL server,
then releases all dependency connections, then closes the HTTP listener
(ceasing to serve and draining its connections), and exits with status 0
only after the listener has closed; dependency connections are thus
released before HTTP draining completes, not after. -/
theorem c4_shutdown_order :
    sigtermHandler =
      [ShutdownEvent.apolloStop, ShutdownEvent.closeConnections,
        ShutdownEvent.httpServerClose, ShutdownEvent.exitProc 0]
    ∧ sigtermHandler.getLast? = some (ShutdownEvent.exitProc 0)
    ∧ sigtermHandler.indexOf ShutdownEvent.apolloStop
      < sigtermHandler.indexOf ShutdownEvent.closeConnections
    ∧ sigtermHandler.indexOf ShutdownEvent.closeConnections
      < sigtermHandler.indexOf ShutdownEvent.httpServerClose
    ∧ sigtermHandler.indexOf ShutdownEvent.httpServerClose
      < sigtermHandler.indexOf (ShutdownEvent.exitProc 0) := by
  refine ⟨rfl, rfl, ?_, ?_, ?_⟩ <;> decide

/-! ### Auth context bridge (server.js lines 251-282)

Both the per-request `context` function (lines 251-269) and the
subscription `onConnect` handler (lines 270-282) compute
`authorization?.replace('Bearer ', '')` and, when the result is truthy
(a non-empty string), delegate to `AuthService.verifyToken`. `AuthService`
itself is not under `src/`; modelled from the spec: the authentication
collaborator is consumed as `verifyToken(credential) → identity | absent`
(§6), a verification failure yielding an absent identity (§4.3), so it is
a parameter `verify : String → Option User`. -/

/-- A resolved caller identity, as returned by the authentication
collaborator. -/
structure User where
  id : String
deriving DecidableEq, Repr

/-- JavaScript's `String.prototype.replace` with a plain-string pattern:
replace the first occurrence of `pat` (leave the string unchanged when
`pat` does not occur). List-of-characters worker. -/
def jsReplaceFirstList (pat rep : List Char) : List Char → List Char
  | [] => if pat = [] then rep else []
  | c :: cs =>
      if pat.isPrefixOf (c :: cs) then rep ++ (c :: cs).drop pat.length
      else c :: jsReplaceFirstList pat rep cs

/-- JavaScript's `str.replace(pat, rep)` for plain-string `pat`: only the
first occurrence is replaced. -/
def jsReplaceFirst (s pat rep : String) : String :=
  String.mk (jsReplaceFirstList pat.toList rep.toList s.toList)

/-- The slice of an HTTP request the context function reads: its
`Authorization` header (`req.headers.authorization`), absent when the
header is missing. -/
structure Req where
  authHeader : Option String
deriving DecidableEq, Repr

/-- The subscription `connectionParams` object: its `authorization`
field. -/
structure ConnParams where
  authHeader : Option String
deriving DecidableEq, Repr

/-- Identity resolution of the per-request `context` function (lines
256-261): strip via `replace('Bearer ', '')`; a missing header or a
JavaScript-falsy (empty) token yields `user = null`; otherwise the token
goes to `verifyToken`. -/
def httpResolveUser (verify : String → Option User) (req : Req) :
    Option User :=
  match req.authHeader with
  | none => none
  | some s =>
      let token := jsReplaceFirst s "Bearer " ""
      if token = "" then none else verify token

/-- Identity resolution of `subscriptions.onConnect` (lines 272-277),
applied to the connection params at handshake time. -/
def wsResolveUser (verify : String → Option User) (params : ConnParams) :
    Option User :=
  match params.authHeader with
  | none => none
  | some s =>
      let token := jsReplaceFirst s "Bearer " ""
      if token = "" then none else verify token

/-- The context object handed to resolvers: lines 264-268 build
`\x7b user, req, logger \x7d` for an HTTP request, line 280 builds
`\x7b user \x7d` for a subscription connection (the logger handle
carries no modelled state). -/
inductive Ctx where
  | http (user : Option User) (req : Req)
  | ws (user : Option User)
deriving DecidableEq, Repr

/-- The user identity carried by a context. -/
def Ctx.user : Ctx → Option User
  | .http u _ => u
  | .ws u => u

/-- The HTTP branch of the Apollo `context` function (lines 256-268). -/
def httpContext (verify : String → Option User) (req : Req) : Ctx :=
  .http (httpResolveUser verify req) req

/-- `subscriptions.onConnect` (lines 271-281): the connection context
computed once at handshake time. -/
def onConnect (verify : String → Option User) (params : ConnParams) : Ctx :=
  .ws (wsResolveUser verify params)

/-- A live subscription connection as Apollo hands it back to the
`context` function: it carries the context built at connect time. -/
structure Connection where
  context : Ctx
deriving DecidableEq, Repr

/-- The full Apollo `context` function (lines 251-269): for an operation
on a live connection it returns `connection.context` unchanged (lines
252-254); otherwise it resolves the HTTP request. -/
def apolloContext (verify : String → Option User)
    (conn : Option Connection) (req : Req) : Ctx :=
  match conn with
  | some c => c.context
  | none => httpContext verify req

/-- The contexts supplied to a sequence of operations arriving on one
live connection. -/
def messageContexts (verify : String → Option User) (conn : Connection)
    (msgs : List Req) : List Ctx :=
  msgs.map (fun r => apolloContext verify (some conn) r)

/-- C5: for every credential value (including absence) the per-request
identity resolution and the handshake identity resolution agree; both
yield an absent identity on a missing credential, and both delegate the
stripped token to `verifyToken` when it is non-empty. -/
theorem c5_auth_bridge_same (verify : String → Option User)
    (auth : Option String) :
    httpResolveUser verify ⟨auth⟩ = wsResolveUser verify ⟨auth⟩
    ∧ (auth = none → httpResolveUser verify ⟨auth⟩ = none)
    ∧ (∀ s, auth = some s → jsReplaceFirst s "Bearer " "" ≠ "" →
        httpResolveUser verify ⟨auth⟩
          = verify (jsReplaceFirst s "Bearer " "")) := by
  refine ⟨?_, ?_, ?_⟩
  · cases auth <;> rfl
  · intro h; subst h; rfl
  · intro s hs hne
    subst hs
    simp [httpResolveUser, hne]

/-- Witness for C5: a verifier accepting every token maps the header
`Bearer abc` to the user `abc` on both transports, and a missing header
to no user. -/
theorem c5_auth_bridge_same_witness :
    httpResolveUser (fun t => some ⟨t⟩) ⟨some "Bearer abc"⟩ = some ⟨"abc"⟩
    ∧ wsResolveUser (fun t => some ⟨t⟩) ⟨some "Bearer abc"⟩ = some ⟨"abc"⟩
    ∧ httpResolveUser (fun t => some ⟨t⟩) ⟨none⟩ = none := by
  have h := c5_auth_bridge_same (fun t => some ⟨t⟩) (some "Bearer abc")
  have h2 := c5_auth_bridge_same (fun t => some ⟨t⟩) (none : Option String)
  refine ⟨?_, ?_, h2.2.1 rfl⟩
  · exact (h.2.2 "Bearer abc" rfl (by decide)).trans (by decide)
  · exact h.1.symm.trans ((h.2.2 "Bearer abc" rfl (by decide)).trans
      (by decide))

/-- C6: resolving the context with a missing credential, or with one
whose verification fails (the collaborator returning an absent
identity), yields an absent user identity on both transports; the
resolution functions are total, so no error is raised for that reason. -/
theorem c6_soft_fail (verify : String → Option User) (auth : Option String)
    (h : auth = none
      ∨ ∀ s, auth = some s → verify (jsReplaceFirst s "Bearer " "") = none) :
    httpResolveUser verify ⟨auth⟩ = none
    ∧ wsResolveUser verify ⟨auth⟩ = none := by
  rcases h with h | h
  · subst h; exact ⟨rfl, rfl⟩
  · cases auth with
    | none => exact ⟨rfl, rfl⟩
    | some s =>
        have hv := h s rfl
        constructor
        · simp only [httpResolveUser]
          split <;> simp [hv]
        · simp only [wsResolveUser]
          split <;> simp [hv]

/-- Witness for C6: a verifier rejecting every token leaves the user
absent for the header `Bearer bad` on both transports. -/
theorem c6_soft_fail_witness :
    httpResolveUser (fun _ => none) ⟨some "Bearer bad"⟩ = none
    ∧ wsResolveUser (fun _ => none) ⟨some "Bearer bad"⟩ = none :=
  c6_soft_fail (fun _ => none) (some "Bearer bad") (Or.inr fun _ _ => rfl)

/-- C7: every operation arriving on a live connection is served the
connect-time context unchanged — the context function returns
`connection.context` without recomputation, so it is independent of the
per-message request, and the user field it carries never changes. -/
theorem c7_connection_context_stable (verify : String → Option User)
    (conn : Connection) (msgs : List Req) :
    (∀ ctx ∈ messageContexts verify conn msgs, ctx = conn.context)
    ∧ (∀ ctx ∈ messageContexts verify conn msgs,
        ctx.user = conn.context.user)
    ∧ (∀ r : Req, apolloContext verify (some conn) r = conn.context) := by
  refine ⟨?_, ?_, fun _ => rfl⟩
  · intro ctx hctx
    rcases List.mem_map.mp hctx with ⟨r, _, hr⟩
    exact hr.symm ▸ rfl
  · intro ctx hctx
    rcases List.mem_map.mp hctx with ⟨r, _, hr⟩
    exact hr.symm ▸ rfl

/-- Witness for C7: a two-message connection whose handshake carried
`Bearer abc` serves both operations the identical connect-time context. -/
theorem c7_connection_context_stable_witness :
    ∀ ctx ∈ messageContexts (fun t => some ⟨t⟩)
        ⟨onConnect (fun t => some ⟨t⟩) ⟨some "Bearer abc"⟩⟩
        [⟨none⟩, ⟨some "Bearer other"⟩],
      ctx = onConnect (fun t => some ⟨t⟩) ⟨some "Bearer abc"⟩ :=
  (c7_connection_context_stable (fun t => some ⟨t⟩)
    ⟨onConnect (fun t => some ⟨t⟩) ⟨some "Bearer abc"⟩⟩
    [⟨none⟩, ⟨some "Bearer other"⟩]).1

/-! ### Startup sequence (`startServer`, server.js lines 55-374)

`startServer` awaits `connectNeo4j()`, `connectPostgres()` and
`connectRedis()` in that order (lines 68-70) before any middleware or
listener setup completes; the first failure throws into the `catch` of
lines 370-373, which calls `process.exit(1)`. Only when everything
succeeds does line 336 resolve a port and line 338 bind the listener.
The outcome of each connect and of every probe bind is an environment
parameter; the embedding is the trace of connect successes, the listener
bind, and process exits. Setup steps that can neither fail nor bind a
listener (helmet, cors, limiters, routes, Apollo middleware) produce no
modelled event. -/

/-- Outcomes of the effects `startServer` performs, one flag per
dependency connect, plus the probe-bind environment and the configured
base port. -/
structure StartEnv where
  neo4jOk : Bool
  postgresOk : Bool
  redisOk : Bool
  portEnv : Nat → BindResult
  basePort : Nat

/-- An observable event of the startup sequence. -/
inductive StartEvent where
  | neo4jConnected
  | postgresConnected
  | redisConnected
  | listen (port : Nat)
  | exitProc (code : Nat)
deriving DecidableEq, Repr

/-- Embedding of `startServer` (lines 55-374) as its event trace: the
three dependency connects in source order, each failure jumping to the
catch block's `process.exit(1)`; then port resolution, whose failure
also lands in the catch block; then the listener bind. -/
def startServer (env : StartEnv) : List StartEvent :=
  if env.neo4jOk = false then [.exitProc 1]
  else if env.postgresOk = false then [.neo4jConnected, .exitProc 1]
  else if env.redisOk = false then
    [.neo4jConnected, .postgresConnected, .exitProc 1]
  else
    match findAvailablePort env.portEnv env.basePort with
    | .error _ =>
        [.neo4jConnected, .postgresConnected, .redisConnected, .exitProc 1]
    | .ok p =>
        [.neo4jConnected, .postgresConnected, .redisConnected, .listen p]

/-- C8: if any of the three dependency connects fails, the startup trace
exits with status 1 and contains no listener bind; conversely a listener
bind in the trace implies all three dependencies connected and no exit
occurred. -/
theorem c8_dependencies_before_serving (env : StartEnv) :
    (¬ (env.neo4jOk = true ∧ env.postgresOk = true ∧ env.redisOk = true) →
      StartEvent.exitProc 1 ∈ startServer env
      ∧ ∀ p, StartEvent.listen p ∉ startServer env)
    ∧ (∀ p, StartEvent.listen p ∈ startServer env →
      env.neo4jOk = true ∧ env.postgresOk = true ∧ env.redisOk = true
      ∧ ∀ c, StartEvent.exitProc c ∉ startServer env) := by
  rcases hn : env.neo4jOk with _ | _
  · refine ⟨fun _ => ⟨?_, fun p hmem => ?_⟩, fun p hmem => ?_⟩
    · simp [startServer, hn]
    · simp [startServer, hn] at hmem
    · simp [startServer, hn] at hmem
  · rcases hp2 : env.postgresOk with _ | _
    · refine ⟨fun _ => ⟨?_, fun p hmem => ?_⟩, fun p hmem => ?_⟩
      · simp [startServer, hn, hp2]
      · simp [startServer, hn, hp2] at hmem
      · simp [startServer, hn, hp2] at hmem
    · rcases hr : env.redisOk with _ | _
      · refine ⟨fun _ => ⟨?_, fun p hmem => ?_⟩, fun p hmem => ?_⟩
        · simp [startServer, hn, hp2, hr]
        · simp [startServer, hn, hp2, hr] at hmem
        · simp [startServer, hn, hp2, hr] at hmem
      · constructor
        · intro hcontra
          exact absurd ⟨rfl, rfl, rfl⟩ hcontra
        · intro p hmem
          refine ⟨rfl, rfl, rfl, ?_⟩
          intro c hc
          cases hfap : findAvailablePort env.portEnv env.basePort with
          | error e => simp [startServer, hn, hp2, hr, hfap] at hmem
          | ok q => simp [startServer, hn, hp2, hr, hfap] at hc

/-- Witness for C8: with Redis failing the trace exits 1 and never binds
the listener; with everything available and port 4000 free the trace
never exits. -/
theorem c8_dependencies_before_serving_witness :
    (StartEvent.exitProc 1
        ∈ startServer ⟨true, true, false, fun _ => BindResult.success, 4000⟩
      ∧ StartEvent.listen 4000
        ∉ startServer ⟨true, true, false, fun _ => BindResult.success, 4000⟩)
    ∧ StartEvent.exitProc 1
      ∉ startServer ⟨true, true, true, fun _ => BindResult.success, 4000⟩ := by
  have hfap : findAvailablePort (fun _ => BindResult.success) 4000
      = Except.ok 4000 := fap_success rfl
  constructor
  · have h := (c8_dependencies_before_serving
      ⟨true, true, false, fun _ => BindResult.success, 4000⟩).1 (by simp)
    exact ⟨h.1, h.2 4000⟩
  · have hmem : StartEvent.listen 4000
        ∈ startServer ⟨true, true, true, fun _ => BindResult.success, 4000⟩ := by
      simp [startServer, hfap]
    exact ((c8_dependencies_before_serving
      ⟨true, true, true, fun _ => BindResult.success, 4000⟩).2 4000
      hmem).2.2.2 1

/-! ### Express error handler (server.js lines 324-330)

The final error middleware logs the error and answers every error that
reaches it with a 500 JSON body; the `message` field echoes the error's
message only on the development branch. It returns a response rather
than exiting, so the process keeps serving. -/

/-- The JSON body and status the error middleware sends. -/
structure ErrResponse where
  status : Nat
  error : String
  message : String
deriving DecidableEq, Repr

/-- Embedding of the error middleware (lines 324-330): status 500, a
fixed `error` field, and a `message` that is the error's own message in
the development environment and the fixed string otherwise. -/
def errorHandler (env : String) (errMessage : String) : ErrResponse :=
  { status := 500
    error := "Internal Server Error"
    message :=
      if env = "development" then errMessage else "Something went wrong" }

/-- C9: every error reaching the final middleware yields a 500 response
with the fixed error marker — the handler is a total function into
responses, never a process exit; its message echoes the underlying
error's message exactly on the development branch and is the fixed
string `Something went wrong` in every other environment. -/
theorem c9_error_handler (env errMessage : String) :
    (errorHandler env errMessage).status = 500
    ∧ (errorHandler env errMessage).error = "Internal Server Error"
    ∧ (env = "development" →
        (errorHandler env errMessage).message = errMessage)
    ∧ (env ≠ "development" →
        (errorHandler env errMessage).message = "Something went wrong") := by
  refine ⟨rfl, rfl, ?_, ?_⟩
  · intro h; simp [errorHandler, h]
  · intro h; simp [errorHandler, h]

/-- Witness for C9: in production the body hides the error message; in
development it echoes it. -/
theorem c9_error_handler_witness :
    (errorHandler "production" "boom").message = "Something went wrong"
    ∧ (errorHandler "development" "boom").message = "boom" :=
  ⟨(c9_error_handler "production" "boom").2.2.2 (by decide),
    (c9_error_handler "development" "boom").2.2.1 rfl⟩

end IntelGraph
